import Mathlib

/-!
Shallow embedding of the Birding Suggester client (src/client/src/App.tsx).

The source is a single React component.  We model its view state as a record
and each event handler / callback as a pure state-transition function that
mirrors the sequence of `setXxx` calls in the source.  Browser inputs
(the string carried by an input event, the parsed `Number(...)` of the radius
field, the geolocation callback arguments) and the network outcome of the
single `fetch` call are passed in as explicit arguments.  JS `null`/absent
values become `Option`; JS numbers become `Rat` (no floating point rounding
is at issue in any claim except `toFixed(4)`, which we model exactly on
rationals following the ECMAScript `toFixed` rounding rule).
-/

namespace Birding

/-- Search mode, `'random' | 'top'` in the source. -/
inductive Mode where
  | random
  | top
deriving DecidableEq

/-- `type Coordinates = { lat: number; lng: number }`. -/
structure Coordinates where
  lat : Rat
  lng : Rat
deriving DecidableEq

/-- `type HotspotActivity` from the source. -/
structure HotspotActivity where
  checklistCount : Int
  observationCount : Int
  lastObservationDate : Option String
  score : Rat
deriving DecidableEq

/-- `type Hotspot` from the source. -/
structure Hotspot where
  locId : String
  name : String
  latitude : Rat
  longitude : Rat
  countryCode : String
  regionCode : String
  distanceKm : Option Rat
  url : String
  activity : HotspotActivity
deriving DecidableEq

/-- The component's `useState` cells, in source order (App.tsx lines 31-41). -/
structure AppState where
  mode : Mode
  distanceKm : Rat
  postalCode : String
  coords : Option Coordinates
  loading : Bool
  geolocating : Bool
  error : Option String
  status : Option String
  randomHotspot : Option Hotspot
  topHotspots : List Hotspot
  hasFetched : Bool
deriving DecidableEq

/-- The initial values passed to `useState` in the source. -/
def initialState : AppState :=
  { mode := Mode.random
    distanceKm := 25
    postalCode := ""
    coords := none
    loading := false
    geolocating := false
    error := none
    status := none
    randomHotspot := none
    topHotspots := []
    hasFetched := false }

/-- Whitespace predicate for `String.prototype.trim` (the characters relevant
to this model; the state only ever holds digit strings, so the exact
whitespace set is immaterial). -/
def isJsSpace (c : Char) : Bool :=
  c = ' ' || c = '\t' || c = '\n' || c = '\r'

/-- JS `s.trim()`: strip leading and trailing whitespace. -/
def jsTrim (s : String) : String :=
  String.mk (((s.data.dropWhile isJsSpace).reverse.dropWhile isJsSpace).reverse)

/-- JS `s.replace(/\D/g, '')`: keep only the decimal digits. -/
def stripNonDigits (s : String) : String :=
  String.mk (s.data.filter Char.isDigit)

/-- A query-string value: the serialized form of a JS number or string.
We keep the underlying value rather than committing to ECMAScript
number-to-string formatting, which no claim depends on. -/
inductive QueryValue where
  | num (q : Rat)
  | str (s : String)
deriving DecidableEq

/-- The single HTTP request the component can issue:
`fetch(API_BASE_URL + "/" + endpoint + "?" + buildQuery())`. -/
structure Request where
  base : String
  endpoint : String
  query : List (String × QueryValue)
deriving DecidableEq

/-- Whether a query (an ordered key/value list, as built by `URLSearchParams`
insertion) contains a key. -/
def hasKey (q : List (String × QueryValue)) (k : String) : Bool :=
  q.any (fun p => p.1 == k)

/-- `buildQuery` (App.tsx lines 53-66): `distanceKm` always; then `lat` and
`lng` if `coords` is set, else `postalCode` if its trimmed value is truthy. -/
def buildQuery (s : AppState) : List (String × QueryValue) :=
  let params := [("distanceKm", QueryValue.num s.distanceKm)]
  match s.coords with
  | some c => params ++ [("lat", QueryValue.num c.lat), ("lng", QueryValue.num c.lng)]
  | none =>
      if jsTrim s.postalCode ≠ "" then
        params ++ [("postalCode", QueryValue.str (jsTrim s.postalCode))]
      else params

/-- The local-validation error text (App.tsx line 76). -/
def validationMessage : String :=
  "Enter a valid 5-digit ZIP code or allow location access."

/-- The response payload as the component reads it: `payload.message`,
`payload.hotspot`, `payload.hotspots`, each possibly absent. -/
structure Payload where
  message : Option String
  hotspot : Option Hotspot
  hotspots : Option (List Hotspot)
deriving DecidableEq

/-- Outcome of the awaited `fetch` + `response.json()`:
either a parsed response with its `ok` flag and payload, or a thrown
exception (`some m` an `Error` with message `m`, `none` a non-`Error` value). -/
inductive FetchOutcome where
  | response (ok : Bool) (payload : Payload)
  | thrown (message : Option String)
deriving DecidableEq

/-- The five resets at the top of `fetchHotspots` (App.tsx lines 69-73). -/
def clearForFetch (s : AppState) : AppState :=
  { s with error := none
           status := none
           randomHotspot := none
           topHotspots := []
           hasFetched := false }

/-- `fetchHotspots` (App.tsx lines 68-101) as a transition on state, given the
configured base URL and the network outcome.  Returns the new state and the
request issued, `none` when validation failed before any request.
The `!ok` branch throws `Error(payload.message ?? 'Unable to fetch hotspots.')`
which the `catch` turns into that same error string; we fold the two steps. -/
def fetchHotspots (base : String) (s : AppState) (outcome : FetchOutcome) :
    AppState × Option Request :=
  let s := clearForFetch s
  if s.coords = none ∧ (jsTrim s.postalCode).length ≠ 5 then
    ({ s with error := some validationMessage }, none)
  else
    let s := { s with loading := true }
    let endpoint := if s.mode = Mode.random then "hotspots/random" else "hotspots/top"
    let req : Request := { base := base, endpoint := endpoint, query := buildQuery s }
    let s :=
      match outcome with
      | FetchOutcome.response true p =>
          let s :=
            if s.mode = Mode.random then { s with randomHotspot := p.hotspot }
            else { s with topHotspots := p.hotspots.getD [] }
          { s with hasFetched := true }
      | FetchOutcome.response false p =>
          { s with error := some (p.message.getD "Unable to fetch hotspots.") }
      | FetchOutcome.thrown m =>
          { s with error := some (m.getD "Unexpected error.") }
    ({ s with loading := false }, some req)

/-- The radius input onChange handler (App.tsx lines 176-179).  The argument
is `Number(event.target.value)`, with `none` standing for `NaN`:
`setDistanceKm(Number.isNaN(value) ? 1 : value)`. -/
def handleDistanceChange (s : AppState) (value : Option Rat) : AppState :=
  { s with distanceKm := value.getD 1 }

/-- The ZIP input onChange handler (App.tsx lines 190-196): strip non-digits,
store the result, and clear `coords` when the stored value is truthy.
The rendered input carries `maxLength={5}`, so the browser never delivers a
`raw` longer than five characters. -/
def handleZipChange (s : AppState) (raw : String) : AppState :=
  let value := stripNonDigits raw
  let s := { s with postalCode := value }
  if value ≠ "" then { s with coords := none } else s

/-- ECMAScript `x.toFixed(4)` read back with `Number(...)` (App.tsx lines
120-121): round `|x|` to the nearest multiple of `1/10000`, ties away from
zero, reattaching the sign. -/
def toFixed4 (x : Rat) : Rat :=
  if x < 0 then -((Rat.floor (-x * 10000 + 1/2) : Rat) / 10000)
  else ((Rat.floor (x * 10000 + 1/2) : Rat) / 10000)

/-- The body of `requestCurrentLocation` before any callback fires
(App.tsx lines 107-116), given whether `navigator.geolocation` exists. -/
def requestCurrentLocation (s : AppState) (supported : Bool) : AppState :=
  if supported then
    { s with geolocating := true
             status := some "Requesting your location..."
             error := none }
  else { s with error := some "Geolocation is not supported in this browser." }

/-- The geolocation success callback (App.tsx lines 118-126), given the raw
position's latitude and longitude. -/
def geoSuccess (s : AppState) (lat lng : Rat) : AppState :=
  { s with coords := some { lat := toFixed4 lat, lng := toFixed4 lng }
           postalCode := ""
           geolocating := false
           status := some "Location locked in. Ready when you are!" }

/-- The geolocation error callback (App.tsx lines 127-131);
`message` is `geoError.message`, `none` standing for null/undefined. -/
def geoFailure (s : AppState) (message : Option String) : AppState :=
  { s with geolocating := false
           status := none
           error := some (message.getD "Unable to access your location.") }

/-- A mode-button click together with the `useEffect` keyed on `mode`
(App.tsx lines 139-145): set the mode and clear results, status, error and
the fetched flag. -/
def changeMode (s : AppState) (m : Mode) : AppState :=
  { s with mode := m
           randomHotspot := none
           topHotspots := []
           status := none
           error := none
           hasFetched := false }

/-- What the top-mode results section renders. -/
inductive TopView where
  | message (text : String)
  | grid (spots : List Hotspot)
deriving DecidableEq

/-- The top-mode section of the JSX (App.tsx lines 250-291): rendered only
when `!loading && mode === 'top'`; inside, `!hasFetched` shows the
never-searched text, an empty list shows the empty-result text, otherwise the
grid of hotspot cards. -/
def renderTopSection (s : AppState) : Option TopView :=
  if s.loading = false ∧ s.mode = Mode.top then
    some (if s.hasFetched = false then
            TopView.message "Run the search to see the hottest hotspots from the past 7 days."
          else if s.topHotspots.length = 0 then
            TopView.message "No hotspots met the 7-day activity threshold within this radius."
          else TopView.grid s.topHotspots)
  else none

/-- C1: if `coords` is null and the trimmed postal code's length is not 5,
submitting issues no HTTP request and sets the validation error message. -/
theorem C1_validation_blocks_request (base : String) (s : AppState)
    (outcome : FetchOutcome) (hc : s.coords = none)
    (hp : (jsTrim s.postalCode).length ≠ 5) :
    (fetchHotspots base s outcome).2 = none ∧
      (fetchHotspots base s outcome).1.error = some validationMessage := by
  simp [fetchHotspots, clearForFetch, hc, hp]

/-- C1 witness: a concrete state with no coordinates and a 3-digit ZIP. -/
theorem C1_validation_blocks_request_witness :
    (fetchHotspots "http://localhost:4000/api"
        { initialState with postalCode := "123" }
        (FetchOutcome.response true { message := none, hotspot := none, hotspots := none })).2
        = none ∧
      (fetchHotspots "http://localhost:4000/api"
        { initialState with postalCode := "123" }
        (FetchOutcome.response true { message := none, hotspot := none, hotspots := none })).1.error
        = some validationMessage :=
  C1_validation_blocks_request _ _ _ (by decide) (by decide)

/-- A concrete state holding GPS coordinates, for witnesses. -/
def coordState : AppState :=
  { initialState with coords := some { lat := 1, lng := 2 } }

/-- A concrete state holding a 5-digit ZIP code, for witnesses. -/
def zipState : AppState :=
  { initialState with postalCode := "80302" }

/-- C2: every validated submit issues one request under the configured base
URL, with endpoint `hotspots/random` in random mode and `hotspots/top` in top
mode; the query always has `distanceKm`, has `lat` and `lng` exactly when
`coords` is non-null (coordinates taking precedence), and has `postalCode`
exactly otherwise. -/
theorem C2_request_shape (base : String) (s : AppState) (outcome : FetchOutcome)
    (hv : ¬(s.coords = none ∧ (jsTrim s.postalCode).length ≠ 5)) :
    ∃ req, (fetchHotspots base s outcome).2 = some req ∧
      req.base = base ∧
      req.endpoint = (if s.mode = Mode.random then "hotspots/random" else "hotspots/top") ∧
      hasKey req.query "distanceKm" = true ∧
      (hasKey req.query "lat" = true ↔ s.coords ≠ none) ∧
      (hasKey req.query "lng" = true ↔ s.coords ≠ none) ∧
      (hasKey req.query "postalCode" = true ↔ s.coords = none) := by
  rcases hc : s.coords with _ | c
  · have h5 : (jsTrim s.postalCode).length = 5 := by
      by_contra h
      exact hv ⟨hc, h⟩
    have hne : ¬ jsTrim s.postalCode = "" := by
      intro h
      rw [h] at h5
      simp at h5
    refine ⟨{ base := base
              endpoint := if s.mode = Mode.random then "hotspots/random" else "hotspots/top"
              query := [("distanceKm", QueryValue.num s.distanceKm),
                        ("postalCode", QueryValue.str (jsTrim s.postalCode))] },
      ?_, rfl, rfl, ?_, ?_, ?_, ?_⟩ <;>
      simp [fetchHotspots, clearForFetch, buildQuery, hasKey, hc, h5, hne]
  · refine ⟨{ base := base
              endpoint := if s.mode = Mode.random then "hotspots/random" else "hotspots/top"
              query := [("distanceKm", QueryValue.num s.distanceKm),
                        ("lat", QueryValue.num c.lat), ("lng", QueryValue.num c.lng)] },
      ?_, rfl, rfl, ?_, ?_, ?_, ?_⟩ <;>
      simp [fetchHotspots, clearForFetch, buildQuery, hasKey, hc]

/-- C2 witness: with coordinates set, a random-mode submit yields a request
with `lat`/`lng` and no `postalCode`. -/
theorem C2_request_shape_witness :
    ∃ req, (fetchHotspots "http://localhost:4000/api" coordState
        (FetchOutcome.thrown none)).2 = some req ∧
      req.base = "http://localhost:4000/api" ∧
      req.endpoint =
        (if coordState.mode = Mode.random then "hotspots/random" else "hotspots/top") ∧
      hasKey req.query "distanceKm" = true ∧
      (hasKey req.query "lat" = true ↔ coordState.coords ≠ none) ∧
      (hasKey req.query "lng" = true ↔ coordState.coords ≠ none) ∧
      (hasKey req.query "postalCode" = true ↔ coordState.coords = none) :=
  C2_request_shape "http://localhost:4000/api" coordState
    (FetchOutcome.thrown none) (by decide)

/-- Characterization of the ZIP handler: the stripped value is stored, and
`coords` is nulled exactly when that value is non-empty. -/
theorem handleZipChange_eq (s : AppState) (raw : String) :
    handleZipChange s raw =
      if stripNonDigits raw = "" then { s with postalCode := "" }
      else { s with postalCode := stripNonDigits raw, coords := none } := by
  by_cases h : stripNonDigits raw = ""
  · simp [handleZipChange, h]
  · simp [handleZipChange, h]

/-- When validation fails, `fetchHotspots` only sets the validation error. -/
theorem fetchHotspots_invalid (base : String) (s : AppState) (outcome : FetchOutcome)
    (h : s.coords = none ∧ (jsTrim s.postalCode).length ≠ 5) :
    fetchHotspots base s outcome =
      ({ clearForFetch s with error := some validationMessage }, none) := by
  simp [fetchHotspots, clearForFetch, h.1, h.2]

/-- Resulting state of a successful random-mode fetch. -/
theorem fetch_success_random (base : String) (s : AppState) (p : Payload)
    (hv : ¬(s.coords = none ∧ (jsTrim s.postalCode).length ≠ 5))
    (hm : s.mode = Mode.random) :
    (fetchHotspots base s (FetchOutcome.response true p)).1 =
      { clearForFetch s with randomHotspot := p.hotspot
                             hasFetched := true
                             loading := false } := by
  rcases hc : s.coords with _ | c
  · have h5 : (jsTrim s.postalCode).length = 5 := by
      by_contra h
      exact hv ⟨hc, h⟩
    simp [fetchHotspots, clearForFetch, hc, h5, hm]
  · simp [fetchHotspots, clearForFetch, hc, hm]

/-- Resulting state of a successful top-mode fetch. -/
theorem fetch_success_top (base : String) (s : AppState) (p : Payload)
    (hv : ¬(s.coords = none ∧ (jsTrim s.postalCode).length ≠ 5))
    (hm : s.mode = Mode.top) :
    (fetchHotspots base s (FetchOutcome.response true p)).1 =
      { clearForFetch s with topHotspots := p.hotspots.getD []
                             hasFetched := true
                             loading := false } := by
  rcases hc : s.coords with _ | c
  · have h5 : (jsTrim s.postalCode).length = 5 := by
      by_contra h
      exact hv ⟨hc, h⟩
    simp [fetchHotspots, clearForFetch, hc, h5, hm]
  · simp [fetchHotspots, clearForFetch, hc, hm]

/-- Resulting state when the response has a non-success status. -/
theorem fetch_error_state (base : String) (s : AppState) (p : Payload)
    (hv : ¬(s.coords = none ∧ (jsTrim s.postalCode).length ≠ 5)) :
    (fetchHotspots base s (FetchOutcome.response false p)).1 =
      { clearForFetch s with error := some (p.message.getD "Unable to fetch hotspots.")
                             loading := false } := by
  rcases hc : s.coords with _ | c
  · have h5 : (jsTrim s.postalCode).length = 5 := by
      by_contra h
      exact hv ⟨hc, h⟩
    simp [fetchHotspots, clearForFetch, hc, h5]
  · simp [fetchHotspots, clearForFetch, hc]

/-- Resulting state when the fetch or JSON parse throws. -/
theorem fetch_thrown_state (base : String) (s : AppState) (m : Option String)
    (hv : ¬(s.coords = none ∧ (jsTrim s.postalCode).length ≠ 5)) :
    (fetchHotspots base s (FetchOutcome.thrown m)).1 =
      { clearForFetch s with error := some (m.getD "Unexpected error.")
                             loading := false } := by
  rcases hc : s.coords with _ | c
  · have h5 : (jsTrim s.postalCode).length = 5 := by
      by_contra h
      exact hv ⟨hc, h⟩
    simp [fetchHotspots, clearForFetch, hc, h5]
  · simp [fetchHotspots, clearForFetch, hc]

/-- C3: on a non-success HTTP response the error state becomes the payload's
`message` field when present and the generic fallback otherwise. -/
theorem C3_error_from_response (base : String) (s : AppState) (p : Payload)
    (hv : ¬(s.coords = none ∧ (jsTrim s.postalCode).length ≠ 5)) :
    (fetchHotspots base s (FetchOutcome.response false p)).1.error =
      some (p.message.getD "Unable to fetch hotspots.") := by
  rw [fetch_error_state base s p hv]

/-- C3 witness: a 400 response with body message `Invalid ZIP code` makes the
displayed error exactly that text. -/
theorem C3_error_from_response_witness :
    (fetchHotspots "http://localhost:4000/api" zipState
        (FetchOutcome.response false
          { message := some "Invalid ZIP code", hotspot := none, hotspots := none })).1.error =
      some "Invalid ZIP code" :=
  C3_error_from_response "http://localhost:4000/api" zipState
    { message := some "Invalid ZIP code", hotspot := none, hotspots := none } (by decide)

/-- C4 counterexample: the radius handler stores the numeric entry 0
unchanged, so a numeric entry below 1 is not raised to 1. -/
theorem C4_no_clamp_counterexample :
    (handleDistanceChange initialState (some 0)).distanceKm = 0 ∧
      ¬ (1 ≤ (handleDistanceChange initialState (some 0)).distanceKm) := by
  constructor
  · rfl
  · intro h
    norm_num [handleDistanceChange, initialState] at h

/-- C4 amended: a non-numeric (NaN) radius entry resets distanceKm to 1, and
any numeric entry is stored unchanged, including values below 1 — the handler
performs no clamping. -/
theorem C4_distance_change_amended (s : AppState) (v : Rat) :
    (handleDistanceChange s none).distanceKm = 1 ∧
      (handleDistanceChange s (some v)).distanceKm = v :=
  ⟨rfl, rfl⟩

/-- C5: for every ZIP input event — whose raw value the rendered input's
`maxLength={5}` caps at five characters — the stored postalCode consists of
digits only and its length never exceeds 5. -/
theorem C5_zip_digits_bounded (s : AppState) (raw : String)
    (hlen : raw.length ≤ 5) :
    (handleZipChange s raw).postalCode.data.all Char.isDigit = true ∧
      (handleZipChange s raw).postalCode.length ≤ 5 := by
  have hpc : (handleZipChange s raw).postalCode = stripNonDigits raw := by
    rw [handleZipChange_eq]
    by_cases h : stripNonDigits raw = ""
    · simp [h]
    · simp [h]
  rw [hpc]
  constructor
  · refine List.all_eq_true.mpr ?_
    intro c hcmem
    have : c ∈ raw.data.filter Char.isDigit := hcmem
    exact of_decide_eq_true (decide_eq_true (List.mem_filter.mp this).2)
  · calc (stripNonDigits raw).length = (raw.data.filter Char.isDigit).length := rfl
      _ ≤ raw.data.length := List.length_filter_le _ _
      _ = raw.length := rfl
      _ ≤ 5 := hlen

/-- C5 witness: the raw input string with mixed characters. -/
theorem C5_zip_digits_bounded_witness :
    (handleZipChange initialState "8a3-2").postalCode.data.all Char.isDigit = true ∧
      (handleZipChange initialState "8a3-2").postalCode.length ≤ 5 :=
  C5_zip_digits_bounded initialState "8a3-2" (by decide)

/-- C6: geolocation success clears the postal code; a ZIP input event that
stores a non-empty value nulls the coordinates; and after either transition at
most one of coords / non-empty postalCode remains active. -/
theorem C6_location_mutual_exclusion (s : AppState) (lat lng : Rat) (raw : String) :
    (geoSuccess s lat lng).postalCode = "" ∧
      ((handleZipChange s raw).postalCode ≠ "" → (handleZipChange s raw).coords = none) ∧
      ¬((geoSuccess s lat lng).coords ≠ none ∧ (geoSuccess s lat lng).postalCode ≠ "") ∧
      ¬((handleZipChange s raw).coords ≠ none ∧ (handleZipChange s raw).postalCode ≠ "") := by
  have hzip := handleZipChange_eq s raw
  by_cases h : stripNonDigits raw = ""
  · rw [if_pos h] at hzip
    refine ⟨rfl, ?_, ?_, ?_⟩
    · intro hne
      exact absurd (by rw [hzip]) hne
    · rintro ⟨-, hpc⟩
      exact hpc rfl
    · rintro ⟨-, hpc⟩
      rw [hzip] at hpc
      exact hpc rfl
  · rw [if_neg h] at hzip
    refine ⟨rfl, ?_, ?_, ?_⟩
    · intro _
      rw [hzip]
    · rintro ⟨-, hpc⟩
      exact hpc rfl
    · rintro ⟨hco, -⟩
      rw [hzip] at hco
      exact hco rfl

/-- C6 witness: a geolocation fix at (1, 2) and a ZIP entry of 80302. -/
theorem C6_location_mutual_exclusion_witness :
    (geoSuccess coordState 1 2).postalCode = "" ∧
      ((handleZipChange coordState "80302").postalCode ≠ "" →
        (handleZipChange coordState "80302").coords = none) ∧
      ¬((geoSuccess coordState 1 2).coords ≠ none ∧
        (geoSuccess coordState 1 2).postalCode ≠ "") ∧
      ¬((handleZipChange coordState "80302").coords ≠ none ∧
        (handleZipChange coordState "80302").postalCode ≠ "") :=
  C6_location_mutual_exclusion coordState 1 2 "80302"

/-- C7: switching mode clears both result slots, status, error and the
fetched flag, and leaves distanceKm, postalCode and coords unchanged. -/
theorem C7_mode_change_frame (s : AppState) (m : Mode) :
    (changeMode s m).mode = m ∧
      (changeMode s m).randomHotspot = none ∧
      (changeMode s m).topHotspots = [] ∧
      (changeMode s m).status = none ∧
      (changeMode s m).error = none ∧
      (changeMode s m).hasFetched = false ∧
      (changeMode s m).distanceKm = s.distanceKm ∧
      (changeMode s m).postalCode = s.postalCode ∧
      (changeMode s m).coords = s.coords :=
  ⟨rfl, rfl, rfl, rfl, rfl, rfl, rfl, rfl, rfl⟩

/-- C8: in top mode, a successful fetch whose payload has an absent or empty
hotspots list leaves hasFetched true and the view showing the zero-results
message; a top-mode state that has not completed a fetch shows the
never-searched message instead. -/
theorem C8_top_empty_states (base : String) (s t : AppState) (p : Payload)
    (hv : ¬(s.coords = none ∧ (jsTrim s.postalCode).length ≠ 5))
    (hm : s.mode = Mode.top)
    (hp : p.hotspots = none ∨ p.hotspots = some [])
    (htm : t.mode = Mode.top) (htl : t.loading = false) (htf : t.hasFetched = false) :
    (fetchHotspots base s (FetchOutcome.response true p)).1.hasFetched = true ∧
      renderTopSection (fetchHotspots base s (FetchOutcome.response true p)).1 =
        some (TopView.message
          "No hotspots met the 7-day activity threshold within this radius.") ∧
      renderTopSection t =
        some (TopView.message
          "Run the search to see the hottest hotspots from the past 7 days.") := by
  have hres := fetch_success_top base s p hv hm
  have hempty : p.hotspots.getD [] = [] := by
    rcases hp with h | h <;> simp [h]
  refine ⟨?_, ?_, ?_⟩
  · rw [hres]
  · rw [hres]
    simp [renderTopSection, clearForFetch, hempty, hm]
  · simp [renderTopSection, htm, htl, htf]

/-- C8 witness: a top-mode search over ZIP 80302 answered with an empty
hotspot list, next to a fresh top-mode state. -/
theorem C8_top_empty_states_witness :
    (fetchHotspots "http://localhost:4000/api" { zipState with mode := Mode.top }
        (FetchOutcome.response true
          { message := none, hotspot := none, hotspots := some [] })).1.hasFetched = true ∧
      renderTopSection (fetchHotspots "http://localhost:4000/api"
          { zipState with mode := Mode.top }
          (FetchOutcome.response true
            { message := none, hotspot := none, hotspots := some [] })).1 =
        some (TopView.message
          "No hotspots met the 7-day activity threshold within this radius.") ∧
      renderTopSection { initialState with mode := Mode.top } =
        some (TopView.message
          "Run the search to see the hottest hotspots from the past 7 days.") :=
  C8_top_empty_states "http://localhost:4000/api" { zipState with mode := Mode.top }
    { initialState with mode := Mode.top }
    { message := none, hotspot := none, hotspots := some [] }
    (by decide) rfl (Or.inr rfl) rfl rfl rfl

/-- The value `toFixed(4)` produces is an integer multiple of `1/10000`. -/
theorem toFixed4_int_den (x : Rat) : ∃ m : Int, toFixed4 x = (m : Rat) / 10000 := by
  unfold toFixed4
  split
  · refine ⟨-Rat.floor (-x * 10000 + 1/2), ?_⟩
    push_cast
    ring
  · exact ⟨Rat.floor (x * 10000 + 1/2), rfl⟩

/-- C9: geolocation success rounds both coordinates to 4 decimal places,
clears the postal code, sets the confirmation status and ends the in-flight
flag; geolocation failure surfaces the browser message (for a denial message
that text exactly), clears status and ends the in-flight flag. -/
theorem C9_geolocation_callbacks (s t : AppState) (lat lng : Rat) (msg : String) :
    (geoSuccess s lat lng).coords =
        some { lat := toFixed4 lat, lng := toFixed4 lng } ∧
      (∃ m : Int, toFixed4 lat = (m : Rat) / 10000) ∧
      (∃ m : Int, toFixed4 lng = (m : Rat) / 10000) ∧
      (geoSuccess s lat lng).postalCode = "" ∧
      (geoSuccess s lat lng).status = some "Location locked in. Ready when you are!" ∧
      (geoSuccess s lat lng).geolocating = false ∧
      (geoFailure t (some msg)).error = some msg ∧
      (geoFailure t (some msg)).status = none ∧
      (geoFailure t (some msg)).geolocating = false :=
  ⟨rfl, toFixed4_int_den lat, toFixed4_int_den lng, rfl, rfl, rfl, rfl, rfl, rfl⟩

/-- C10: submitting first discards every previous result, status and error —
the outcome is the same as from a pre-cleared state, status is never restored,
and a validation failure, error response or thrown fetch all leave the result
slots empty and hasFetched false. -/
theorem C10_submit_discards_previous (base : String) (s : AppState)
    (outcome : FetchOutcome) :
    fetchHotspots base s outcome = fetchHotspots base (clearForFetch s) outcome ∧
      (fetchHotspots base s outcome).1.status = none ∧
      ((s.coords = none ∧ (jsTrim s.postalCode).length ≠ 5) →
        fetchHotspots base s outcome =
          ({ clearForFetch s with error := some validationMessage }, none)) ∧
      (∀ p, outcome = FetchOutcome.response false p →
        (fetchHotspots base s outcome).1.randomHotspot = none ∧
          (fetchHotspots base s outcome).1.topHotspots = [] ∧
          (fetchHotspots base s outcome).1.hasFetched = false) ∧
      (∀ m, outcome = FetchOutcome.thrown m →
        (fetchHotspots base s outcome).1.randomHotspot = none ∧
          (fetchHotspots base s outcome).1.topHotspots = [] ∧
          (fetchHotspots base s outcome).1.hasFetched = false) := by
  refine ⟨rfl, ?_, fetchHotspots_invalid base s outcome, ?_, ?_⟩
  · by_cases hval : s.coords = none ∧ (jsTrim s.postalCode).length ≠ 5
    · rw [fetchHotspots_invalid base s outcome hval]
      rfl
    · cases outcome with
      | response ok p =>
          cases ok with
          | false =>
              rw [fetch_error_state base s p hval]
              rfl
          | true =>
              cases hm : s.mode with
              | random =>
                  rw [fetch_success_random base s p hval hm]
                  rfl
              | top =>
                  rw [fetch_success_top base s p hval hm]
                  rfl
      | thrown m =>
          rw [fetch_thrown_state base s m hval]
          rfl
  · intro p hpe
    subst hpe
    by_cases hval : s.coords = none ∧ (jsTrim s.postalCode).length ≠ 5
    · rw [fetchHotspots_invalid base s (FetchOutcome.response false p) hval]
      exact ⟨rfl, rfl, rfl⟩
    · rw [fetch_error_state base s p hval]
      exact ⟨rfl, rfl, rfl⟩
  · intro m hme
    subst hme
    by_cases hval : s.coords = none ∧ (jsTrim s.postalCode).length ≠ 5
    · rw [fetchHotspots_invalid base s (FetchOutcome.thrown m) hval]
      exact ⟨rfl, rfl, rfl⟩
    · rw [fetch_thrown_state base s m hval]
      exact ⟨rfl, rfl, rfl⟩

/-- A concrete hotspot record, for witnesses. -/
def sampleHotspot : Hotspot :=
  { locId := "L1"
    name := "Sawhill Ponds"
    latitude := 40
    longitude := -105
    countryCode := "US"
    regionCode := "US-CO"
    distanceKm := some 3
    url := "https://ebird.org/hotspot/L1"
    activity := { checklistCount := 4
                  observationCount := 10
                  lastObservationDate := some "2025-10-01"
                  score := 18 } }

/-- A state still holding the results and messages of an earlier search. -/
def staleState : AppState :=
  { zipState with error := some "stale error"
                  status := some "stale status"
                  randomHotspot := some sampleHotspot
                  topHotspots := [sampleHotspot]
                  hasFetched := true }

/-- C10 witness: a submit from a state full of previous results whose fetch
then throws. -/
theorem C10_submit_discards_previous_witness :
    fetchHotspots "http://localhost:4000/api" staleState
        (FetchOutcome.thrown (some "NetworkError when attempting to fetch resource.")) =
      fetchHotspots "http://localhost:4000/api" (clearForFetch staleState)
        (FetchOutcome.thrown (some "NetworkError when attempting to fetch resource.")) ∧
      (fetchHotspots "http://localhost:4000/api" staleState
        (FetchOutcome.thrown (some "NetworkError when attempting to fetch resource."))).1.status
        = none ∧
      ((staleState.coords = none ∧ (jsTrim staleState.postalCode).length ≠ 5) →
        fetchHotspots "http://localhost:4000/api" staleState
            (FetchOutcome.thrown (some "NetworkError when attempting to fetch resource.")) =
          ({ clearForFetch staleState with error := some validationMessage }, none)) ∧
      (∀ p, FetchOutcome.thrown (some "NetworkError when attempting to fetch resource.") =
          FetchOutcome.response false p →
        (fetchHotspots "http://localhost:4000/api" staleState
            (FetchOutcome.thrown
              (some "NetworkError when attempting to fetch resource."))).1.randomHotspot = none ∧
          (fetchHotspots "http://localhost:4000/api" staleState
            (FetchOutcome.thrown
              (some "NetworkError when attempting to fetch resource."))).1.topHotspots = [] ∧
          (fetchHotspots "http://localhost:4000/api" staleState
            (FetchOutcome.thrown
              (some "NetworkError when attempting to fetch resource."))).1.hasFetched = false) ∧
      (∀ m, FetchOutcome.thrown (some "NetworkError when attempting to fetch resource.") =
          FetchOutcome.thrown m →
        (fetchHotspots "http://localhost:4000/api" staleState
            (FetchOutcome.thrown
              (some "NetworkError when attempting to fetch resource."))).1.randomHotspot = none ∧
          (fetchHotspots "http://localhost:4000/api" staleState
            (FetchOutcome.thrown
              (some "NetworkError when attempting to fetch resource."))).1.topHotspots = [] ∧
          (fetchHotspots "http://localhost:4000/api" staleState
            (FetchOutcome.thrown
              (some "NetworkError when attempting to fetch resource."))).1.hasFetched = false) :=
  C10_submit_discards_previous "http://localhost:4000/api" staleState
    (FetchOutcome.thrown (some "NetworkError when attempting to fetch resource."))

end Birding
